import Mathlib

/-!
Verification of the port-prowler scan orchestration engine against its
specification.  The Go sources are shallowly embedded: every network
interaction (DNS resolution, dialing, writing, reading, measured elapsed
time, the raw-socket privilege check) is an explicit oracle parameter, and
each Go function becomes a pure Lean function of its inputs and its oracle.
Machine bytes are `Nat` values (with `% 256` / `% 65536` where Go truncates),
strings are Lean `String`s, and Go's multiple early `return`s become nested
matches in source order.
-/

namespace PortProwler

/-- Model of Go `strings.Contains s pat`: `pat` occurs as a contiguous
substring of `s`. -/
def containsSub (s pat : String) : Bool :=
  decide (pat.toList <:+: s.toList)

/-- Model of Go `strings.TrimSpace`, over the character list so that it
computes by kernel reduction. -/
def goTrimSpace (s : String) : String :=
  String.mk (((s.toList.dropWhile Char.isWhitespace).reverse.dropWhile Char.isWhitespace).reverse)

/-- Model of Go `strings.ToLower` (ASCII case mapping, which covers every
string this program compares). -/
def goToLower (s : String) : String :=
  String.mk (s.toList.map Char.toLower)

/-- Model of Go `strings.Split` with a one-character separator, over the
character list. -/
def goSplitChars (sep : Char) : List Char → List (List Char)
  | [] => [[]]
  | c :: t =>
    let r := goSplitChars sep t
    if c = sep then [] :: r
    else
      match r with
      | [] => [[c]]
      | h :: t2 => (c :: h) :: t2

/-- Go `strings.Split s (String.singleton sep)` as a `String` function. -/
def goSplit (s : String) (sep : Char) : List String :=
  (goSplitChars sep s.toList).map String.mk

/-- Model of Go `strings.TrimSuffix s "."`: drop one trailing dot if
present. -/
def goTrimSuffixDot (s : String) : String :=
  match s.toList.reverse with
  | '.' :: rest => String.mk rest.reverse
  | _ => s

/-- `port.PortResult` from `port/type.go`: the result of scanning a single
port/protocol.  `RTTMillis` is in milliseconds (Go `int64`; durations here
are non-negative, so `Nat`). -/
structure PortResult where
  Target : String := ""
  IP : String := ""
  Port : Nat := 0
  Proto : String := ""
  State : String := ""
  Service : String := ""
  ServiceBanner : String := ""
  OSGuess : String := ""
  Confidence : String := ""
  Error : String := ""
  RTTMillis : Nat := 0
deriving DecidableEq, Repr

/-- `port.ScanType` from `port/type.go`: the closed enumeration of scan
kinds (`"tcp"`, `"udp"`, `"stealth"`). -/
inductive ScanType where
  | tcp
  | udp
  | stealth
deriving DecidableEq, Repr

/-- The string constant behind each `port.ScanType` value. -/
def ScanType.str : ScanType → String
  | .tcp => "tcp"
  | .udp => "udp"
  | .stealth => "stealth"

/-- `port.PortJob` from `port/type.go`: one port's worth of work with the
ordered list of scans to run sequentially. -/
structure PortJob where
  Target : String
  IP : String
  Port : Nat
  ScanTypes : List ScanType
deriving DecidableEq, Repr

/-- What the Go error-classification code can observe about a transport
error `err`: its text (`err.Error()`), whether it is a `net.Error` with
`Timeout()` true, and whether it is a `*net.OpError` structurally wrapping
`syscall.ECONNREFUSED` (either through `*os.SyscallError` or directly as a
`syscall.Errno`). -/
structure NetErr where
  text : String
  isTimeout : Bool
  structRefused : Bool
deriving DecidableEq, Repr

/-- One TCP probe's network outcome: `net.DialTimeout` either succeeds or
fails with an error, and `time.Since(start)` at that point measures
`elapsedMs` milliseconds. -/
structure TCPProbe where
  outcome : Except NetErr Unit
  elapsedMs : Nat
deriving Repr

/-- The refused-detection applied by `TCPScan` to a dial error: the
structural `ECONNREFUSED` unwrap, then the fallback substring check on a
non-empty error text. -/
def tcpRefused (e : NetErr) : Bool :=
  e.structRefused ||
    (!(e.text == "") && (containsSub e.text "refused" || containsSub e.text "connection refused"))

/-- `TCPScan` from `scanner/tcp.go`: TCP connect scan classification.
Returns the `PortResult` and a flag recording whether the opened
connection was closed before returning (`conn.Close()` runs on the success
path; on error paths no connection exists).  Verbose logging is
output-only and omitted. -/
def TCPScan (ip : String) (portNum : Nat) (pr : TCPProbe) : PortResult × Bool :=
  let res : PortResult :=
    { IP := ip, Port := portNum, Proto := "tcp", State := "filtered", RTTMillis := pr.elapsedMs }
  match pr.outcome with
  | .ok _ => ({ res with State := "open" }, true)
  | .error e =>
    if e.isTimeout then
      ({ res with State := "filtered", Error := "timeout" }, false)
    else if e.structRefused then
      ({ res with State := "closed", Error := "connection refused" }, false)
    else if !(e.text == "") && (containsSub e.text "refused" || containsSub e.text "connection refused") then
      ({ res with State := "closed", Error := e.text }, false)
    else
      ({ res with State := "filtered", Error := e.text }, false)

/-- Go `binary.BigEndian.PutUint16`: the two big-endian bytes of a 16-bit
value (bytes as `Nat`, truncation explicit). -/
def putUint16 (v : Nat) : List Nat :=
  [v / 256 % 256, v % 256]

/-- `encodeDNSName` from `scanner/udp.go`: DNS wire encoding of a dotted
name as length-prefixed labels with a zero terminator.  The Go error
values carry formatted context; only their occurrence matters here. -/
def encodeLabels : List String → Except String (List Nat)
  | [] => .ok [0x00]
  | p :: rest =>
    if p = "" then .error "invalid dns name"
    else if p.length > 63 then .error "dns label too long"
    else
      match encodeLabels rest with
      | .error e => .error e
      | .ok tail => .ok ((p.length :: p.toList.map Char.toNat) ++ tail)

/-- The trimming done at the top of `encodeDNSName`: `strings.TrimSpace`
then `strings.TrimSuffix(name, ".")`. -/
def dnsNameNormalize (name : String) : String :=
  goTrimSuffixDot (goTrimSpace name)

/-- `encodeDNSName` from `scanner/udp.go`. -/
def encodeDNSName (name : String) : Except String (List Nat) :=
  let name := dnsNameNormalize name
  if name = "" then .error "empty dns name"
  else encodeLabels (goSplit name '.')

/-- `buildDNSQueryA` from `scanner/udp.go`: a minimal DNS query for the A
record of `name`.  The two random transaction-identifier bytes drawn from
`crypto/rand` are the oracle parameter `txid` (reduced mod 2^16, as the Go
value has type `uint16`); `rand.Read` is modelled as total.  Returns
(payload bytes, transaction id). -/
def buildDNSQueryA (name : String) (txid : Nat) : Except String (List Nat × Nat) :=
  let txid := txid % 65536
  let hdr := putUint16 txid ++ putUint16 0x0100 ++ putUint16 1
    ++ putUint16 0 ++ putUint16 0 ++ putUint16 0
  match encodeDNSName name with
  | .error e => .error e
  | .ok qname =>
    let qtail := putUint16 1 ++ putUint16 1
    .ok (hdr ++ qname ++ qtail, txid)

/-- `isValidDNSResponse` from `scanner/udp.go`: at least the 12-byte
header, echoed transaction id, and the QR (is-a-response) flag bit set. -/
def isValidDNSResponse (pkt : List Nat) (wantTXID : Nat) : Bool :=
  if pkt.length < 12 then false
  else
    let gotTXID := pkt.getD 0 0 * 256 + pkt.getD 1 0
    if gotTXID ≠ wantTXID then false
    else
      let flags := pkt.getD 2 0 * 256 + pkt.getD 3 0
      decide (Nat.land flags 0x8000 ≠ 0)

/-- `isConnRefusedErr` from `scanner/udp.go`: the structural
`ECONNREFUSED` unwraps (`*os.SyscallError` directly, or through
`*net.OpError`) collapsed into `structRefused`, then the fallback
substring check. -/
def isConnRefusedErr (e : NetErr) : Bool :=
  e.structRefused || containsSub e.text "connection refused"

/-- The refusal test as written at each `UDPScan` call site:
`strings.Contains(err.Error(), "connection refused") || isConnRefusedErr(err)`. -/
def udpRefused (e : NetErr) : Bool :=
  containsSub e.text "connection refused" || isConnRefusedErr e

/-- `UDPScan`'s probe payload selection: port 53 gets the DNS A query for
the fixed name `"example.com"` (falling back to a single zero byte if the
query could not be built); every other port gets the single zero byte.
Second component is the transaction id used for response validation
(`dnsTXID`, zero when no DNS query was built). -/
def udpProbePayload (portNum txid : Nat) : List Nat × Nat :=
  if portNum = 53 then
    match buildDNSQueryA "example.com" txid with
    | .ok pt => pt
    | .error _ => ([0x00], 0)
  else ([0x00], 0)

/-- One UDP probe's network outcomes, in the order `UDPScan` consults
them: `net.ResolveUDPAddr`, `net.DialUDP`, `conn.SetDeadline`,
`conn.Write`, then `conn.Read`.  `read = .ok bytes` models a read that
returned `err == nil` with `bytes` received (possibly none); `elapsedMs`
is `time.Since(start)` when the read returns, `start` being taken just
before the payload send.  `txid` is the random transaction id drawn for a
DNS probe. -/
structure UDPProbe where
  resolveErr : Option String
  dialErr : Option NetErr
  deadlineErr : Option String
  writeErr : Option NetErr
  read : Except NetErr (List Nat)
  elapsedMs : Nat
  txid : Nat

/-- `UDPScan` from `scanner/udp.go` (the updated version: default state
`"open|filtered"`, DNS-aware payload for port 53).  Returns the
`PortResult` and the payload handed to `conn.Write` (`none` when the scan
returned before the send).  Verbose logging is output-only and omitted. -/
def UDPScan (ip : String) (portNum : Nat) (pr : UDPProbe) : PortResult × Option (List Nat) :=
  let res : PortResult :=
    { IP := ip, Port := portNum, Proto := "udp", State := "open|filtered", RTTMillis := 0 }
  match pr.resolveErr with
  | some e => ({ res with Error := e }, none)
  | none =>
  match pr.dialErr with
  | some e =>
    if udpRefused e then ({ res with State := "closed", Error := e.text }, none)
    else ({ res with Error := e.text }, none)
  | none =>
  match pr.deadlineErr with
  | some e => ({ res with Error := e }, none)
  | none =>
  let pt := udpProbePayload portNum pr.txid
  let payload := pt.1
  let dnsTXID := pt.2
  match pr.writeErr with
  | some e =>
    if udpRefused e then ({ res with State := "closed", Error := e.text }, some payload)
    else ({ res with Error := e.text }, some payload)
  | none =>
  let res := { res with RTTMillis := pr.elapsedMs }
  match pr.read with
  | .ok bytes =>
    if bytes.length > 0 then
      if portNum = 53 then
        if isValidDNSResponse bytes dnsTXID then ({ res with State := "open" }, some payload)
        else ({ res with State := "open", Error := "dns response not validated" }, some payload)
      else ({ res with State := "open" }, some payload)
    else ({ res with State := "open|filtered" }, some payload)
  | .error e =>
    if e.isTimeout then ({ res with State := "open|filtered", Error := "timeout" }, some payload)
    else if udpRefused e then ({ res with State := "closed", Error := e.text }, some payload)
    else ({ res with State := "open|filtered", Error := e.text }, some payload)

/-- `StealthScan` from `scanner/stealth.go` — the conservative stub: it
consults the Privilege Gate (`netutil.CanOpenRawSocket`, whose `(bool,
error)` result is the oracle `priv`) and reports `"filtered"` with an
explanatory error on every path.  Verbose logging is absent in the
source. -/
def StealthScan (ip : String) (portNum : Nat) (priv : Bool × Option String) : PortResult :=
  let res : PortResult :=
    { IP := ip, Port := portNum, Proto := "stealth", State := "filtered", RTTMillis := 0 }
  match priv.2 with
  | some e => { res with Error := "stealth privilege check error: " ++ e }
  | none =>
    if !priv.1 then { res with Error := "stealth scan requires raw socket privileges" }
    else { res with Error := "stealth scan not implemented in this build (stub)" }

/-- The signature table from `sigs/signatures.go`:
(substring, service, confidence). -/
def signatures : List (String × String × String) :=
  [("ssh-", "ssh", "high"),
   ("http/", "http", "medium"),
   ("nginx", "http/nginx", "high"),
   ("220 ", "smtp", "medium"),
   ("dns", "dns", "medium")]

/-- `sigs.Detect` from `sigs/signatures.go`: first signature whose
lower-cased substring occurs in the lower-cased banner. -/
def sigsDetect (banner : String) : Option (String × String) :=
  if banner = "" then none
  else
    let lb := goToLower banner
    (signatures.find? (fun s => containsSub lb (goToLower s.1))).map (fun s => s.2)

/-- `detector.Config` from `detector/service.go`.  The timeout only bounds
the detector's own dial/read, which the oracle absorbs. -/
structure DetectorConfig where
  ServiceDetect : Bool
  TimeoutMs : Nat
  Verbose : Bool

/-- The network outcome of `DetectService`'s opportunistic banner probe:
either the dial fails with an error text, or it succeeds and the
subsequent read yields the given data (`""` models `n == 0`; the written
probe and the ignored read error are not observable). -/
structure SvcProbe where
  dial : Except String String

/-- The probing half of `DetectService`: trim any existing banner; when
it is empty and the protocol is `"tcp"`, attempt the opportunistic banner
probe — a failed dial leaves the banner empty and, in verbose mode only,
records a diagnostic in `Error`.  Returns (banner, possibly-annotated
result). -/
def svcBannerProbe (cfg : DetectorConfig) (pr : SvcProbe) (res : PortResult) : String × PortResult :=
  let banner0 := goTrimSpace res.ServiceBanner
  if banner0 = "" && res.Proto == "tcp" then
    match pr.dial with
    | .ok data => ((if data = "" then "" else goTrimSpace data), res)
    | .error e =>
      ("", if cfg.Verbose then { res with Error := "service-detect: dial error: " ++ e } else res)
  else (banner0, res)

/-- The closing half of `DetectService`: on a non-empty banner, match the
signature table and store service/confidence/banner. -/
def svcApplySigs (banner : String) (res1 : PortResult) : PortResult :=
  if banner ≠ "" then
    match sigsDetect banner with
    | some sc => { res1 with Service := sc.1, Confidence := sc.2, ServiceBanner := banner }
    | none => { res1 with ServiceBanner := banner }
  else res1

/-- `DetectService` from `detector/service.go`: enriches an `"open"`
result with service name, banner and confidence; on other inputs returns
the result unchanged. -/
def DetectService (cfg : DetectorConfig) (pr : SvcProbe) (res : PortResult) : PortResult :=
  if !cfg.ServiceDetect || res.State ≠ "open" then res
  else
    let st := svcBannerProbe cfg pr res
    svcApplySigs st.1 st.2

/-- The per-result score accumulation of `DetectOS` from `detector/os.go`:
banner-substring and port-pattern heuristics, tallied as
(windows, linux, embedded). -/
def osScores (results : List PortResult) : Nat × Nat × Nat :=
  results.foldl (fun acc r =>
    let b := goToLower (goTrimSpace (r.ServiceBanner ++ " " ++ r.Service))
    let w := acc.1
    let l := acc.2.1
    let em := acc.2.2
    let w := w + (if containsSub b "windows" || containsSub b "microsoft" || containsSub b "mssql" then 3 else 0)
    let w := w + (if containsSub b "rdp" || r.Port == 3389 then 4 else 0)
    let w := w + (if containsSub b "iis" || containsSub b "winhttp" then 2 else 0)
    let l := l + (if containsSub b "linux" || containsSub b "ubuntu" || containsSub b "debian"
        || containsSub b "centos" || containsSub b "red hat" then 3 else 0)
    let l := l + (if containsSub b "ssh" || containsSub b "sshd" then 2 else 0)
    let l := l + (if containsSub b "nginx" || containsSub b "apache" || containsSub b "http/" then 2 else 0)
    let l := l + (if containsSub b "mysql" || containsSub b "mariadb" || containsSub b "postgres"
        || containsSub b "postgresql" then 2 else 0)
    let em := em + (if containsSub b "cisco" || containsSub b "ios" || containsSub b "ubnt"
        || containsSub b "router" || containsSub b "firmware" then 3 else 0)
    let w := w + (if r.Port == 3389 then 4 else 0)
    let w := w + (if r.Port == 135 || r.Port == 139 || r.Port == 445 then 3 else 0)
    let l := l + (if r.Port == 22 || r.Port == 80 || r.Port == 443 || r.Port == 3306 || r.Port == 5432 then 1 else 0)
    let em := em + (if r.Port == 1900 || r.Port == 5000 then 1 else 0)
    (w, l, em)) (0, 0, 0)

/-- `DetectOS` from `detector/os.go`.  The Go tally iterates its score map
in unspecified order with a strict-greater comparison, so a tie between
distinct OS buckets is resolved nondeterministically there; this embedding
fixes the map-literal order windows, linux, embedded — one admissible run
— and no claim settled here depends on that tie choice. -/
def DetectOS (results : List PortResult) : String × String :=
  if results.length = 0 then ("", "")
  else
    let s := osScores results
    let cand := [("windows", s.1), ("linux", s.2.1), ("embedded", s.2.2)]
    let bs := cand.foldl (fun best c => if c.2 > best.2 then c else best) ("", 0)
    if bs.2 = 0 then ("", "")
    else
      let conf := if bs.2 ≥ 6 then "high" else if bs.2 ≥ 3 then "medium" else "low"
      if bs.1 = "windows" then ("Windows", conf)
      else if bs.1 = "linux" then ("Linux", conf)
      else if bs.1 = "embedded" then ("embedded", conf)
      else ("", "")

/-- `DetectOSForResult` from `detector/os.go`: `DetectOS` on a singleton. -/
def DetectOSForResult (r : PortResult) : String × String :=
  DetectOS [r]

/-- `scanner.Config` from `scanner/manager.go`. -/
structure Config where
  Target : String
  IP : String
  Ports : List Nat
  ScanTCP : Bool
  ScanUDP : Bool
  ScanStealth : Bool
  Workers : Int
  TimeoutMs : Nat
  ServiceDetect : Bool
  OSDetect : Bool
  Verbose : Bool

/-- The error outcomes of `Manager.Run`.  `needPriv` is the `ErrNeedPriv`
sentinel ("stealth requires raw socket privileges"), declared in
`scanner/manager.go` and handled in `main.go`; `Run`'s body, like this
embedding, never actually produces it. -/
inductive RunError where
  | invalidConfig
  | noPorts
  | needPriv
deriving DecidableEq, Repr

/-- The scan-type list `Run` builds for every job: stealth, tcp, udp in
that fixed order when their flags are set, defaulting to tcp alone. -/
def scanTypesOf (cfg : Config) : List ScanType :=
  let ts := (if cfg.ScanStealth then [ScanType.stealth] else [])
    ++ (if cfg.ScanTCP then [ScanType.tcp] else [])
    ++ (if cfg.ScanUDP then [ScanType.udp] else [])
  if ts = [] then [ScanType.tcp] else ts

/-- All network/OS oracles a run consumes: one TCP and one UDP probe
outcome per port, the shared Privilege Gate answer (side-effect-free, so
one value for the run), and one service-detector probe outcome per
(port, scan type). -/
structure Oracles where
  tcp : Nat → TCPProbe
  udp : Nat → UDPProbe
  priv : Bool × Option String
  svc : Nat → ScanType → SvcProbe

/-- The probe dispatch in `Run`'s worker body: one probe call per scan
type. -/
def runProbe (o : Oracles) (st : ScanType) (ip : String) (p : Nat) : PortResult :=
  match st with
  | .tcp => (TCPScan ip p (o.tcp p)).1
  | .udp => (UDPScan ip p (o.udp p)).1
  | .stealth => StealthScan ip p o.priv

/-- The `detector.Config` a worker builds for `DetectService`. -/
def detCfgOf (cfg : Config) : DetectorConfig :=
  { ServiceDetect := cfg.ServiceDetect, TimeoutMs := cfg.TimeoutMs, Verbose := cfg.Verbose }

/-- The worker's service-detection step: run `DetectService` when the
probe result is `"open"` and the flag is set. -/
def serviceStep (cfg : Config) (pr : SvcProbe) (res : PortResult) : PortResult :=
  if res.State = "open" && cfg.ServiceDetect then DetectService (detCfgOf cfg) pr res else res

/-- The worker's OS-detection block: on a non-empty guess, overwrite
`OSGuess` and `Confidence` with the detector's pair. -/
def osStep (res : PortResult) : PortResult :=
  let gc := DetectOSForResult res
  if gc.1 ≠ "" then { res with OSGuess := gc.1, Confidence := gc.2 } else res

/-- The worker's enrichment pipeline after a probe, as written in
`scanner/manager.go` for each of the three scan types: service detection
first (state re-checked on its output), then OS detection. -/
def enrichResult (cfg : Config) (pr : SvcProbe) (res : PortResult) : PortResult :=
  let res1 := serviceStep cfg pr res
  if res1.State = "open" && cfg.OSDetect then osStep res1 else res1

/-- One (job, scan type) execution by a worker: probe, attach the job's
target label, enrich, publish. -/
def publish (cfg : Config) (o : Oracles) (job : PortJob) (st : ScanType) : PortResult :=
  let res := runProbe o st job.IP job.Port
  let res := { res with Target := job.Target }
  enrichResult cfg (o.svc job.Port st) res

/-- A worker's handling of one dequeued job: its scan types strictly in
the job's order, one published result each. -/
def runJob (cfg : Config) (o : Oracles) (job : PortJob) : List PortResult :=
  job.ScanTypes.map (publish cfg o job)

/-- The job the dispatcher enqueues for port `p`. -/
def jobFor (cfg : Config) (p : Nat) : PortJob :=
  { Target := cfg.Target, IP := cfg.IP, Port := p, ScanTypes := scanTypesOf cfg }

/-- `Manager.Run` from `scanner/manager.go` under the no-cancellation
sequential semantics: the validation gate, then the multiset of results
the worker pool delivers on the results channel, listed job by job (the
real arrival order across ports is nondeterministic; per-job order is the
worker's sequential order).  `Run` performs no privilege check. -/
def Run (cfg : Config) (o : Oracles) : Except RunError (List PortResult) :=
  if cfg.Target = "" || cfg.IP = "" then .error .invalidConfig
  else if cfg.Ports.length = 0 then .error .noPorts
  else .ok ((cfg.Ports.map (fun p => runJob cfg o (jobFor cfg p))).flatten)

/-- Program counter of `Run`'s dispatcher goroutine: enqueueing jobs,
waiting on the worker `WaitGroup`, or finished (results channel closed). -/
inductive DispatcherPC where
  | enq
  | waiting
  | done
deriving DecidableEq, Repr

/-- Concurrency state of one `Run` invocation, abstracted to what the
close/wait protocol of `scanner/manager.go` manipulates: the dispatcher's
position, the number of jobs still to enqueue, the number of workers that
have not yet returned (the `WaitGroup` count), and whether `jobChan` /
`resultsChan` have been closed. -/
structure PoolState where
  dpc : DispatcherPC
  remaining : Nat
  running : Nat
  jobsClosed : Bool
  resultsClosed : Bool
deriving DecidableEq, Repr

/-- The state right after `Run` returns the channel: dispatcher about to
enqueue all `jobs` jobs, `workers` workers running, both channels open. -/
def initPool (workers jobs : Nat) : PoolState :=
  { dpc := .enq, remaining := jobs, running := workers, jobsClosed := false, resultsClosed := false }

/-- One interleaving step of the pool.  The dispatcher's transitions
follow its goroutine body in source order: enqueue each job (the job
channel is buffered with full capacity, so sends never block, and the
`ctx.Done` select-break does not leave the loop), `close(jobChan)`,
`wg.Wait()` — which completes only when no worker is running — then
`close(resultsChan)`.  A worker may return at any moment (job channel
closed and drained, or cancellation observed at any of its select
points), which is the `wg.Done()` transition. -/
inductive PoolStep : PoolState → PoolState → Prop
  | enqueueJob (s : PoolState) (k : Nat) :
      s.dpc = .enq → s.remaining = k + 1 → PoolStep s { s with remaining := k }
  | closeJobs (s : PoolState) :
      s.dpc = .enq → s.remaining = 0 →
      PoolStep s { s with jobsClosed := true, dpc := .waiting }
  | workerExit (s : PoolState) (k : Nat) :
      s.running = k + 1 → PoolStep s { s with running := k }
  | closeResults (s : PoolState) :
      s.dpc = .waiting → s.running = 0 →
      PoolStep s { s with resultsClosed := true, dpc := .done }

/-- Reachability in the pool's interleaving semantics. -/
def PoolReach (a b : PoolState) : Prop :=
  Relation.ReflTransGen PoolStep a b

/-- The inductive invariant tying the dispatcher's position to the
channel states. -/
def PoolInv (s : PoolState) : Prop :=
  (s.dpc = .enq → s.jobsClosed = false ∧ s.resultsClosed = false)
  ∧ (s.dpc = .waiting → s.jobsClosed = true ∧ s.remaining = 0 ∧ s.resultsClosed = false)
  ∧ (s.dpc = .done → s.jobsClosed = true ∧ s.remaining = 0 ∧ s.resultsClosed = true ∧ s.running = 0)
  ∧ (s.resultsClosed = true → s.dpc = .done)

/-- A quiet-network UDP probe outcome: every setup step succeeds and the
read times out after 1000 ms. -/
def udpProbeQuiet : UDPProbe :=
  { resolveErr := none, dialErr := none, deadlineErr := none, writeErr := none,
    read := .error { text := "i/o timeout", isTimeout := true, structRefused := false },
    elapsedMs := 1000, txid := 0 }

/-- A concrete oracle: every TCP dial succeeds in 1 ms, UDP is quiet, the
Privilege Gate denies (unprivileged Unix process: `euid ≠ 0`, no error),
and the service detector's banner-probe dial fails. -/
def oracleDefault : Oracles :=
  { tcp := fun _ => { outcome := .ok (), elapsedMs := 1 },
    udp := fun _ => udpProbeQuiet,
    priv := (false, none),
    svc := fun _ _ => { dial := .error "connect: network is unreachable" } }

/-- A run requesting stealth and TCP on port 80 of a resolved target. -/
def cfgStealthTCP : Config :=
  { Target := "host", IP := "192.0.2.1", Ports := [80], ScanTCP := true, ScanUDP := false,
    ScanStealth := true, Workers := 1, TimeoutMs := 1000, ServiceDetect := false,
    OSDetect := false, Verbose := false }

/-- A service-detector probe whose dial fails. -/
def svcProbeFail : SvcProbe :=
  { dial := .error "connect: network is unreachable" }

/-- A run with no scan flags set (exercises the tcp default). -/
def cfgNoFlags : Config :=
  { Target := "host", IP := "192.0.2.1", Ports := [22, 80], ScanTCP := false, ScanUDP := false,
    ScanStealth := false, Workers := 4, TimeoutMs := 1000, ServiceDetect := false,
    OSDetect := false, Verbose := false }

/-- A run with OS detection on and service detection off. -/
def cfgOSDetect : Config :=
  { Target := "host", IP := "192.0.2.1", Ports := [22], ScanTCP := true, ScanUDP := false,
    ScanStealth := false, Workers := 1, TimeoutMs := 1000, ServiceDetect := false,
    OSDetect := true, Verbose := false }

/-- An open tcp/22 result carrying an SSH banner and a confidence already
populated by service detection. -/
def resOpenSSH : PortResult :=
  { Target := "host", IP := "192.0.2.1", Port := 22, Proto := "tcp", State := "open",
    Service := "ssh", ServiceBanner := "SSH-2.0-OpenSSH", Confidence := "high", RTTMillis := 3 }

/-- A DNS probe of port 53 answered by a structurally valid response:
transaction id 4660 = 0x1234 echoed, flags 0x8180 (QR bit set). -/
def udpProbeDNSValid : UDPProbe :=
  { resolveErr := none, dialErr := none, deadlineErr := none, writeErr := none,
    read := .ok [18, 52, 129, 128, 0, 0, 0, 0, 0, 0, 0, 0], elapsedMs := 23, txid := 4660 }

/-- A DNS probe of port 53 answered by three bytes that fail validation. -/
def udpProbeDNSBad : UDPProbe :=
  { resolveErr := none, dialErr := none, deadlineErr := none, writeErr := none,
    read := .ok [1, 2, 3], elapsedMs := 9, txid := 4660 }

/-- A generic UDP probe answered by one byte. -/
def udpProbeEcho : UDPProbe :=
  { resolveErr := none, dialErr := none, deadlineErr := none, writeErr := none,
    read := .ok [42], elapsedMs := 4, txid := 0 }

/-- How many results in `rs` belong to the (port, protocol) pair
(`q`, `s`). -/
def pairCount (rs : List PortResult) (q : Nat) (s : String) : Nat :=
  rs.countP (fun r => r.Port == q && r.Proto == s)

/-!  ## Helper lemmas  -/

theorem TCPScan_fields (ip : String) (p : Nat) (pr : TCPProbe) :
    (TCPScan ip p pr).1.Port = p ∧ (TCPScan ip p pr).1.Proto = "tcp" := by
  obtain ⟨o, t⟩ := pr
  unfold TCPScan
  cases o <;> repeat' split <;> simp_all

theorem UDPScan_fields (ip : String) (p : Nat) (pr : UDPProbe) :
    (UDPScan ip p pr).1.Port = p ∧ (UDPScan ip p pr).1.Proto = "udp" := by
  obtain ⟨r, d, dl, w, rd, el, tx⟩ := pr
  unfold UDPScan
  cases r <;> cases d <;> cases dl <;> cases w <;> cases rd <;> dsimp only <;> repeat' split
  all_goals exact ⟨rfl, rfl⟩

theorem StealthScan_fields (ip : String) (p : Nat) (priv : Bool × Option String) :
    (StealthScan ip p priv).Port = p ∧ (StealthScan ip p priv).Proto = "stealth" := by
  obtain ⟨ok, e⟩ := priv
  unfold StealthScan
  cases e <;> repeat' split <;> simp_all

theorem svcApplySigs_fields (b : String) (r : PortResult) :
    (svcApplySigs b r).Port = r.Port ∧ (svcApplySigs b r).Proto = r.Proto
    ∧ (svcApplySigs b r).State = r.State ∧ (svcApplySigs b r).Target = r.Target
    ∧ (svcApplySigs b r).IP = r.IP ∧ (svcApplySigs b r).OSGuess = r.OSGuess
    ∧ (svcApplySigs b r).RTTMillis = r.RTTMillis ∧ (svcApplySigs b r).Error = r.Error := by
  unfold svcApplySigs
  repeat' split
  all_goals simp_all

theorem svcBannerProbe_frame (cfg : DetectorConfig) (pr : SvcProbe) (res : PortResult) :
    (svcBannerProbe cfg pr res).2.Port = res.Port
    ∧ (svcBannerProbe cfg pr res).2.Proto = res.Proto
    ∧ (svcBannerProbe cfg pr res).2.State = res.State
    ∧ (svcBannerProbe cfg pr res).2.Target = res.Target
    ∧ (svcBannerProbe cfg pr res).2.IP = res.IP
    ∧ (svcBannerProbe cfg pr res).2.OSGuess = res.OSGuess
    ∧ (svcBannerProbe cfg pr res).2.RTTMillis = res.RTTMillis := by
  obtain ⟨d⟩ := pr
  unfold svcBannerProbe
  dsimp only
  by_cases hc : (decide (goTrimSpace res.ServiceBanner = "") && res.Proto == "tcp") = true
  · rw [if_pos hc]
    cases d <;> repeat' split
    all_goals simp_all
  · rw [if_neg hc]
    exact ⟨rfl, rfl, rfl, rfl, rfl, rfl, rfl⟩

theorem svcBannerProbe_error_quiet (cfg : DetectorConfig) (pr : SvcProbe) (res : PortResult)
    (h : cfg.Verbose = false ∨ ∃ d, pr.dial = .ok d) :
    (svcBannerProbe cfg pr res).2.Error = res.Error := by
  obtain ⟨d⟩ := pr
  unfold svcBannerProbe
  dsimp only
  by_cases hc : (decide (goTrimSpace res.ServiceBanner = "") && res.Proto == "tcp") = true
  · rw [if_pos hc]
    cases d <;> repeat' split
    all_goals simp_all
  · rw [if_neg hc]

theorem detectService_frame_fields (cfg : DetectorConfig) (pr : SvcProbe) (res : PortResult) :
    (DetectService cfg pr res).Port = res.Port
    ∧ (DetectService cfg pr res).Proto = res.Proto
    ∧ (DetectService cfg pr res).State = res.State
    ∧ (DetectService cfg pr res).Target = res.Target
    ∧ (DetectService cfg pr res).IP = res.IP
    ∧ (DetectService cfg pr res).OSGuess = res.OSGuess
    ∧ (DetectService cfg pr res).RTTMillis = res.RTTMillis := by
  unfold DetectService
  split
  · exact ⟨rfl, rfl, rfl, rfl, rfl, rfl, rfl⟩
  · dsimp only
    refine ⟨?_, ?_, ?_, ?_, ?_, ?_, ?_⟩
    · exact ((svcApplySigs_fields _ _).1).trans (svcBannerProbe_frame cfg pr res).1
    · exact ((svcApplySigs_fields _ _).2.1).trans (svcBannerProbe_frame cfg pr res).2.1
    · exact ((svcApplySigs_fields _ _).2.2.1).trans (svcBannerProbe_frame cfg pr res).2.2.1
    · exact ((svcApplySigs_fields _ _).2.2.2.1).trans (svcBannerProbe_frame cfg pr res).2.2.2.1
    · exact ((svcApplySigs_fields _ _).2.2.2.2.1).trans (svcBannerProbe_frame cfg pr res).2.2.2.2.1
    · exact ((svcApplySigs_fields _ _).2.2.2.2.2.1).trans
        (svcBannerProbe_frame cfg pr res).2.2.2.2.2.1
    · exact ((svcApplySigs_fields _ _).2.2.2.2.2.2.1).trans
        (svcBannerProbe_frame cfg pr res).2.2.2.2.2.2

theorem detectService_error_of_quiet (cfg : DetectorConfig) (pr : SvcProbe) (res : PortResult)
    (h : cfg.Verbose = false ∨ ∃ d, pr.dial = .ok d) :
    (DetectService cfg pr res).Error = res.Error := by
  unfold DetectService
  split
  · rfl
  · dsimp only
    exact ((svcApplySigs_fields _ _).2.2.2.2.2.2.2).trans
      (svcBannerProbe_error_quiet cfg pr res h)

theorem osStep_fields (res : PortResult) :
    (osStep res).Port = res.Port
    ∧ (osStep res).Proto = res.Proto
    ∧ (osStep res).State = res.State
    ∧ (osStep res).Target = res.Target
    ∧ (osStep res).IP = res.IP
    ∧ (osStep res).Service = res.Service
    ∧ (osStep res).ServiceBanner = res.ServiceBanner
    ∧ (osStep res).Error = res.Error
    ∧ (osStep res).RTTMillis = res.RTTMillis := by
  unfold osStep
  dsimp only
  split <;> simp_all

theorem serviceStep_frame_fields (cfg : Config) (pr : SvcProbe) (res : PortResult) :
    (serviceStep cfg pr res).Port = res.Port
    ∧ (serviceStep cfg pr res).Proto = res.Proto
    ∧ (serviceStep cfg pr res).State = res.State := by
  unfold serviceStep
  split
  · exact ⟨(detectService_frame_fields _ _ _).1, (detectService_frame_fields _ _ _).2.1,
      (detectService_frame_fields _ _ _).2.2.1⟩
  · exact ⟨rfl, rfl, rfl⟩

theorem enrichResult_frame_fields (cfg : Config) (pr : SvcProbe) (res : PortResult) :
    (enrichResult cfg pr res).Port = res.Port
    ∧ (enrichResult cfg pr res).Proto = res.Proto := by
  unfold enrichResult
  dsimp only
  split
  · exact ⟨(osStep_fields _).1.trans (serviceStep_frame_fields _ _ _).1,
      (osStep_fields _).2.1.trans (serviceStep_frame_fields _ _ _).2.1⟩
  · exact ⟨(serviceStep_frame_fields _ _ _).1, (serviceStep_frame_fields _ _ _).2.1⟩

theorem runProbe_fields (o : Oracles) (st : ScanType) (ip : String) (p : Nat) :
    (runProbe o st ip p).Port = p ∧ (runProbe o st ip p).Proto = st.str := by
  cases st
  · exact TCPScan_fields ip p (o.tcp p)
  · exact UDPScan_fields ip p (o.udp p)
  · exact StealthScan_fields ip p o.priv

theorem publish_fields (cfg : Config) (o : Oracles) (job : PortJob) (st : ScanType) :
    (publish cfg o job st).Port = job.Port ∧ (publish cfg o job st).Proto = st.str := by
  unfold publish
  constructor
  · exact (enrichResult_frame_fields _ _ _).1.trans (runProbe_fields o st job.IP job.Port).1
  · exact (enrichResult_frame_fields _ _ _).2.trans (runProbe_fields o st job.IP job.Port).2

/-!  ## Claim theorems  -/

/-- C3: TCPScan classification — a completed handshake yields `"open"`
with the connection closed before returning; a timeout yields
`"filtered"` with error `"timeout"`; a connection-refused transport error
(structural `ECONNREFUSED` or a refused-substring error text) yields
`"closed"`; any other transport error yields `"filtered"` carrying the
raw error text; the state is one of the three values on every path. -/
theorem tcpscan_classification (ip : String) (p : Nat) (pr : TCPProbe) :
    (pr.outcome = .ok () → (TCPScan ip p pr).1.State = "open" ∧ (TCPScan ip p pr).2 = true)
  ∧ (∀ e, pr.outcome = .error e → e.isTimeout = true →
      (TCPScan ip p pr).1.State = "filtered" ∧ (TCPScan ip p pr).1.Error = "timeout")
  ∧ (∀ e, pr.outcome = .error e → e.isTimeout = false → tcpRefused e = true →
      (TCPScan ip p pr).1.State = "closed")
  ∧ (∀ e, pr.outcome = .error e → e.isTimeout = false → tcpRefused e = false →
      (TCPScan ip p pr).1.State = "filtered" ∧ (TCPScan ip p pr).1.Error = e.text)
  ∧ ((TCPScan ip p pr).1.State = "open" ∨ (TCPScan ip p pr).1.State = "closed"
      ∨ (TCPScan ip p pr).1.State = "filtered") := by
  obtain ⟨o, t⟩ := pr
  cases o with
  | ok u =>
    refine ⟨?_, ?_, ?_, ?_, ?_⟩
    · intro _
      exact ⟨by simp [TCPScan], by simp [TCPScan]⟩
    · intro e he
      exact absurd he (by simp)
    · intro e he
      exact absurd he (by simp)
    · intro e he
      exact absurd he (by simp)
    · exact Or.inl (by simp [TCPScan])
  | error e =>
    refine ⟨?_, ?_, ?_, ?_, ?_⟩
    · intro h
      exact absurd h (by simp)
    · intro f hf ht
      simp only [Except.error.injEq] at hf
      subst hf
      simp [TCPScan, ht]
    · intro f hf ht hr
      simp only [Except.error.injEq] at hf
      subst hf
      unfold tcpRefused at hr
      by_cases hs : e.structRefused
      · simp [TCPScan, ht, hs]
      · simp [hs] at hr
        simp [TCPScan, ht, hs, hr]
    · intro f hf ht hr
      simp only [Except.error.injEq] at hf
      subst hf
      unfold tcpRefused at hr
      simp only [Bool.or_eq_false_iff] at hr
      simp [TCPScan, ht, hr.1, hr.2]
    · by_cases ht : e.isTimeout
      · right; right; simp [TCPScan, ht]
      · by_cases hs : e.structRefused
        · right; left; simp [TCPScan, ht, hs]
        · by_cases hc : (!(e.text == "") && (containsSub e.text "refused" || containsSub e.text "connection refused")) = true
          · right; left; simp [TCPScan, ht, hs, hc]
          · right; right; simp [TCPScan, ht, hs, hc]

/-- Witness for C3 at concrete probes: a successful dial, a timeout, a
structural refusal, and an unclassifiable transport error. -/
theorem tcpscan_classification_witness :
    (TCPScan "10.0.0.1" 80 ⟨.ok (), 5⟩).1.State = "open"
  ∧ (TCPScan "10.0.0.1" 80 ⟨.error ⟨"i/o timeout", true, false⟩, 1000⟩).1.Error = "timeout"
  ∧ (TCPScan "10.0.0.1" 80 ⟨.error ⟨"connect: connection refused", false, true⟩, 1⟩).1.State = "closed"
  ∧ (TCPScan "10.0.0.1" 80 ⟨.error ⟨"network is unreachable", false, false⟩, 1⟩).1.State = "filtered" := by
  refine ⟨?_, ?_, ?_, ?_⟩
  · exact ((tcpscan_classification "10.0.0.1" 80 ⟨.ok (), 5⟩).1 rfl).1
  · exact ((tcpscan_classification "10.0.0.1" 80
      ⟨.error ⟨"i/o timeout", true, false⟩, 1000⟩).2.1 ⟨"i/o timeout", true, false⟩ rfl rfl).2
  · exact (tcpscan_classification "10.0.0.1" 80
      ⟨.error ⟨"connect: connection refused", false, true⟩, 1⟩).2.2.1
      ⟨"connect: connection refused", false, true⟩ rfl rfl (by decide)
  · exact ((tcpscan_classification "10.0.0.1" 80
      ⟨.error ⟨"network is unreachable", false, false⟩, 1⟩).2.2.2.1
      ⟨"network is unreachable", false, false⟩ rfl rfl (by decide)).1

/-- C4: when a UDP probe's read times out with no data received, the
state is exactly `"open|filtered"` and the error field is `"timeout"`. -/
theorem udpscan_timeout_state (ip : String) (p : Nat) (pr : UDPProbe) (e : NetErr)
    (h1 : pr.resolveErr = none) (h2 : pr.dialErr = none) (h3 : pr.deadlineErr = none)
    (h4 : pr.writeErr = none) (h5 : pr.read = .error e) (h6 : e.isTimeout = true) :
    (UDPScan ip p pr).1.State = "open|filtered" ∧ (UDPScan ip p pr).1.Error = "timeout" := by
  obtain ⟨r, d, dl, w, rd, el, tx⟩ := pr
  simp only at h1 h2 h3 h4 h5
  subst h1 h2 h3 h4 h5
  unfold UDPScan
  dsimp only
  simp [h6]

/-- Witness for C4: a quiet-network probe (everything succeeds, read
times out). -/
theorem udpscan_timeout_state_witness :
    (UDPScan "192.0.2.1" 161 udpProbeQuiet).1.State = "open|filtered"
  ∧ (UDPScan "192.0.2.1" 161 udpProbeQuiet).1.Error = "timeout" :=
  udpscan_timeout_state "192.0.2.1" 161 udpProbeQuiet
    ⟨"i/o timeout", true, false⟩ rfl rfl rfl rfl rfl rfl

/-- C8 counterexample: on a read timeout (no response arrived) `UDPScan`
does not leave `RTTMillis` at zero — it stores the elapsed time measured
at the read's return (here 1000 ms, the timeout). -/
theorem udpscan_rtt_timeout_counterexample :
    (UDPScan "192.0.2.1" 9999 udpProbeQuiet).1.Error = "timeout"
  ∧ (UDPScan "192.0.2.1" 9999 udpProbeQuiet).1.State = "open|filtered"
  ∧ (UDPScan "192.0.2.1" 9999 udpProbeQuiet).1.RTTMillis = 1000
  ∧ (UDPScan "192.0.2.1" 9999 udpProbeQuiet).1.RTTMillis ≠ 0 := by
  refine ⟨rfl, rfl, rfl, ?_⟩
  decide

/-- C8 (amended): `RTTMillis` is the elapsed time measured from the probe
send to the moment the read returns — whenever the read is reached,
including on a timeout — and is left at zero exactly on the paths that
fail before the read (resolve, dial, set-deadline, or write errors). -/
theorem udpscan_rtt_measured (ip : String) (p : Nat) (pr : UDPProbe) :
    (pr.resolveErr = none → pr.dialErr = none → pr.deadlineErr = none → pr.writeErr = none →
      (UDPScan ip p pr).1.RTTMillis = pr.elapsedMs)
  ∧ ((pr.resolveErr ≠ none ∨ pr.dialErr ≠ none ∨ pr.deadlineErr ≠ none ∨ pr.writeErr ≠ none) →
      (UDPScan ip p pr).1.RTTMillis = 0) := by
  obtain ⟨r, d, dl, w, rd, el, tx⟩ := pr
  constructor
  · intro h1 h2 h3 h4
    simp only at h1 h2 h3 h4
    subst h1 h2 h3 h4
    unfold UDPScan
    dsimp only
    cases rd <;> dsimp only <;> repeat' split
    all_goals rfl
  · intro h
    unfold UDPScan
    cases r <;> cases d <;> cases dl <;> cases w <;> dsimp only
    · exact absurd h (by simp)
    all_goals (repeat' split) <;> rfl

/-- Witness for C8 (amended): the read-reached case at the quiet probe
and an early-failure case with a resolve error. -/
theorem udpscan_rtt_measured_witness :
    (UDPScan "192.0.2.1" 9999 udpProbeQuiet).1.RTTMillis = 1000
  ∧ (UDPScan "192.0.2.1" 9999
      { udpProbeQuiet with resolveErr := some "no such host" }).1.RTTMillis = 0 := by
  constructor
  · exact (udpscan_rtt_measured "192.0.2.1" 9999 udpProbeQuiet).1 rfl rfl rfl rfl
  · exact (udpscan_rtt_measured "192.0.2.1" 9999
      { udpProbeQuiet with resolveErr := some "no such host" }).2 (Or.inl (by simp [udpProbeQuiet]))

/-- C5: the port-53 probe payload is the minimal DNS A query for the
fixed name example.com with the randomized two-byte transaction id in its
first two bytes (flags 0x0100, QDCOUNT 1, the encoded name, QTYPE A,
QCLASS IN); validation checks exactly header length, echoed transaction
id, and the response flag bit; a validated reply is `"open"` with no
error, a non-empty reply failing validation is still `"open"` but
annotated; on any other port a single zero byte is sent and any non-empty
reply is `"open"`. -/
theorem udp_dns_probe_contract (txid : Nat) (htx : txid < 65536) :
    (udpProbePayload 53 txid
      = ([txid / 256, txid % 256, 0x01, 0x00, 0, 1, 0, 0, 0, 0, 0, 0,
          7, 101, 120, 97, 109, 112, 108, 101, 3, 99, 111, 109, 0, 0, 1, 0, 1], txid))
  ∧ (∀ pkt : List Nat, isValidDNSResponse pkt txid = true ↔
      (12 ≤ pkt.length ∧ pkt.getD 0 0 * 256 + pkt.getD 1 0 = txid
        ∧ Nat.land (pkt.getD 2 0 * 256 + pkt.getD 3 0) 0x8000 ≠ 0))
  ∧ (∀ ip pr bytes, pr.resolveErr = none → pr.dialErr = none → pr.deadlineErr = none →
      pr.writeErr = none → pr.read = .ok bytes → pr.txid = txid →
      ((UDPScan ip 53 pr).2 = some (udpProbePayload 53 txid).1
       ∧ (bytes ≠ [] → isValidDNSResponse bytes txid = true →
           (UDPScan ip 53 pr).1.State = "open" ∧ (UDPScan ip 53 pr).1.Error = "")
       ∧ (bytes ≠ [] → isValidDNSResponse bytes txid = false →
           (UDPScan ip 53 pr).1.State = "open"
             ∧ (UDPScan ip 53 pr).1.Error = "dns response not validated")))
  ∧ (∀ ip p pr bytes, p ≠ 53 → pr.resolveErr = none → pr.dialErr = none → pr.deadlineErr = none →
      pr.writeErr = none → pr.read = .ok bytes → bytes ≠ [] →
      ((UDPScan ip p pr).2 = some [0x00] ∧ (UDPScan ip p pr).1.State = "open")) := by
  have h1 : txid % 65536 = txid := Nat.mod_eq_of_lt htx
  have h2 : txid / 256 < 256 := Nat.div_lt_of_lt_mul (by omega)
  have h3 : txid / 256 % 256 = txid / 256 := Nat.mod_eq_of_lt h2
  have hpay : udpProbePayload 53 txid
      = ([txid / 256, txid % 256, 0x01, 0x00, 0, 1, 0, 0, 0, 0, 0, 0,
          7, 101, 120, 97, 109, 112, 108, 101, 3, 99, 111, 109, 0, 0, 1, 0, 1], txid) := by
    unfold udpProbePayload buildDNSQueryA
    rw [show encodeDNSName "example.com"
      = .ok [7, 101, 120, 97, 109, 112, 108, 101, 3, 99, 111, 109, 0] from rfl]
    simp [putUint16, h1, h3]
  refine ⟨hpay, ?_, ?_, ?_⟩
  · intro pkt
    unfold isValidDNSResponse
    dsimp only
    split_ifs with hlen heq
    · simp only [Bool.false_eq_true, false_iff]
      rintro ⟨h12, -, -⟩
      omega
    · simp only [Bool.false_eq_true, false_iff]
      rintro ⟨-, hid, -⟩
      exact heq hid
    · simp only [decide_eq_true_eq]
      constructor
      · intro hflag
        exact ⟨by omega, by omega, hflag⟩
      · rintro ⟨-, -, hflag⟩
        exact hflag
  · intro ip pr bytes e1 e2 e3 e4 e5 e6
    obtain ⟨r, d, dl, w, rd, el, tx⟩ := pr
    simp only at e1 e2 e3 e4 e5 e6
    subst e1 e2 e3 e4 e5 e6
    unfold UDPScan
    dsimp only
    rw [hpay]
    refine ⟨by split_ifs <;> rfl, ?_, ?_⟩
    · intro hne hv
      rw [if_pos (List.length_pos.mpr hne), if_pos rfl, if_pos hv]
      exact ⟨rfl, rfl⟩
    · intro hne hv
      rw [if_pos (List.length_pos.mpr hne), if_pos rfl,
        if_neg (by rw [hv]; exact Bool.false_ne_true)]
      exact ⟨rfl, rfl⟩
  · intro ip p pr bytes hp e1 e2 e3 e4 e5 e6
    obtain ⟨r, d, dl, w, rd, el, tx⟩ := pr
    simp only at e1 e2 e3 e4 e5
    subst e1 e2 e3 e4 e5
    unfold UDPScan
    dsimp only
    rw [show udpProbePayload p tx = ([0x00], 0) by unfold udpProbePayload; rw [if_neg hp]]
    rw [if_pos (List.length_pos.mpr e6), if_neg hp]
    exact ⟨rfl, rfl⟩

/-- Witness for C5 at transaction id 0x1234: the validated DNS reply, the
malformed DNS reply, the generic echo, and the exact payload bytes. -/
theorem udp_dns_probe_contract_witness :
    ((UDPScan "192.0.2.1" 53 udpProbeDNSValid).1.State = "open"
      ∧ (UDPScan "192.0.2.1" 53 udpProbeDNSValid).1.Error = "")
  ∧ ((UDPScan "192.0.2.1" 53 udpProbeDNSBad).1.State = "open"
      ∧ (UDPScan "192.0.2.1" 53 udpProbeDNSBad).1.Error = "dns response not validated")
  ∧ (UDPScan "192.0.2.1" 7 udpProbeEcho).1.State = "open"
  ∧ (UDPScan "192.0.2.1" 53 udpProbeDNSValid).2
      = some [18, 52, 1, 0, 0, 1, 0, 0, 0, 0, 0, 0,
          7, 101, 120, 97, 109, 112, 108, 101, 3, 99, 111, 109, 0, 0, 1, 0, 1] := by
  have h := udp_dns_probe_contract 4660 (by decide)
  refine ⟨?_, ?_, ?_, ?_⟩
  · exact (h.2.2.1 "192.0.2.1" udpProbeDNSValid [18, 52, 129, 128, 0, 0, 0, 0, 0, 0, 0, 0]
      rfl rfl rfl rfl rfl rfl).2.1 (by decide) (by decide)
  · exact (h.2.2.1 "192.0.2.1" udpProbeDNSBad [1, 2, 3]
      rfl rfl rfl rfl rfl rfl).2.2 (by decide) (by decide)
  · exact ((h.2.2.2 "192.0.2.1" 7 udpProbeEcho [42]
      (by decide) rfl rfl rfl rfl rfl (by decide)).2)
  · have hp := (h.2.2.1 "192.0.2.1" udpProbeDNSValid [18, 52, 129, 128, 0, 0, 0, 0, 0, 0, 0, 0]
      rfl rfl rfl rfl rfl rfl).1
    rw [show (udpProbePayload 53 4660).1
      = [18, 52, 1, 0, 0, 1, 0, 0, 0, 0, 0, 0,
          7, 101, 120, 97, 109, 112, 108, 101, 3, 99, 111, 109, 0, 0, 1, 0, 1] from rfl] at hp
    exact hp

/-- C9 counterexample: with verbose logging on, a failed banner-probe
dial makes `DetectService` overwrite the `Error` field — a field other
than service name, banner, and confidence — so the result is not obtained
from the input by populating those three fields alone. -/
theorem detectservice_error_counterexample :
    (DetectService { ServiceDetect := true, TimeoutMs := 1000, Verbose := true } svcProbeFail
        { IP := "192.0.2.1", Port := 80, Proto := "tcp", State := "open" }).Error
      = "service-detect: dial error: connect: network is unreachable"
  ∧ ({ IP := "192.0.2.1", Port := 80, Proto := "tcp", State := "open" } : PortResult).Error = "" := by
  exact ⟨rfl, rfl⟩

/-- C9 (amended): `DetectService` always preserves protocol, port, and
state; returns the input unchanged when the flag is unset or the state is
not `"open"`; and apart from service name, banner, and confidence it can
touch only the error field, and that only in verbose mode when the banner
probe's dial failed. -/
theorem detectservice_contract (cfg : DetectorConfig) (pr : SvcProbe) (res : PortResult) :
    ((DetectService cfg pr res).Proto = res.Proto
      ∧ (DetectService cfg pr res).Port = res.Port
      ∧ (DetectService cfg pr res).State = res.State)
  ∧ ((cfg.ServiceDetect = false ∨ res.State ≠ "open") → DetectService cfg pr res = res)
  ∧ (cfg.Verbose = false → (DetectService cfg pr res).Error = res.Error)
  ∧ ((DetectService cfg pr res).Error ≠ res.Error →
      cfg.Verbose = true ∧ ∃ e, pr.dial = .error e) := by
  refine ⟨⟨(detectService_frame_fields cfg pr res).2.1, (detectService_frame_fields cfg pr res).1,
    (detectService_frame_fields cfg pr res).2.2.1⟩, ?_, ?_, ?_⟩
  · intro h
    rcases h with h | h
    · simp [DetectService, h]
    · simp [DetectService, h]
  · intro hv
    exact detectService_error_of_quiet cfg pr res (Or.inl hv)
  · intro hne
    by_cases hv : cfg.Verbose
    · obtain ⟨d⟩ := pr
      cases d with
      | ok data =>
        exact absurd (detectService_error_of_quiet cfg ⟨.ok data⟩ res (Or.inr ⟨data, rfl⟩)) hne
      | error e => exact ⟨hv, e, rfl⟩
    · exact absurd (detectService_error_of_quiet cfg pr res (Or.inl (by simpa using hv))) hne

/-- Witness for C9 (amended) at a concrete open result with service
detection off (returned unchanged) and at the same result with detection
on and a quiet dial. -/
theorem detectservice_contract_witness :
    DetectService { ServiceDetect := false, TimeoutMs := 1000, Verbose := false } svcProbeFail
        resOpenSSH = resOpenSSH
  ∧ (DetectService { ServiceDetect := true, TimeoutMs := 1000, Verbose := false } svcProbeFail
        resOpenSSH).State = resOpenSSH.State
  ∧ (DetectService { ServiceDetect := true, TimeoutMs := 1000, Verbose := false } svcProbeFail
        resOpenSSH).Error = resOpenSSH.Error := by
  refine ⟨?_, ?_, ?_⟩
  · exact (detectservice_contract { ServiceDetect := false, TimeoutMs := 1000, Verbose := false }
      svcProbeFail resOpenSSH).2.1 (Or.inl rfl)
  · exact (detectservice_contract { ServiceDetect := true, TimeoutMs := 1000, Verbose := false }
      svcProbeFail resOpenSSH).1.2.2
  · exact (detectservice_contract { ServiceDetect := true, TimeoutMs := 1000, Verbose := false }
      svcProbeFail resOpenSSH).2.2.1 rfl

/-- C10: whenever OS detection is enabled, the (service-detection-
enriched) result is `"open"`, and `DetectOSForResult` returns a non-empty
guess, the worker publishes the result with `Confidence` overwritten by
the OS-detection confidence (and `OSGuess` by the guess) — replacing any
confidence service detection had populated. -/
theorem worker_os_confidence_overwrite (cfg : Config) (pr : SvcProbe) (res : PortResult)
    (h1 : cfg.OSDetect = true) (h2 : (serviceStep cfg pr res).State = "open")
    (h3 : (DetectOSForResult (serviceStep cfg pr res)).1 ≠ "") :
    (enrichResult cfg pr res).Confidence = (DetectOSForResult (serviceStep cfg pr res)).2
    ∧ (enrichResult cfg pr res).OSGuess = (DetectOSForResult (serviceStep cfg pr res)).1 := by
  unfold enrichResult
  dsimp only
  rw [if_pos (by simp [h1, h2])]
  unfold osStep
  dsimp only
  rw [if_pos h3]
  exact ⟨rfl, rfl⟩

/-- Witness for C10: an open tcp/22 result with an SSH banner and a
service-detection confidence of `"high"`; the OS detector guesses Linux
with confidence `"medium"`, which overwrites the `"high"`. -/
theorem worker_os_confidence_overwrite_witness :
    (enrichResult cfgOSDetect svcProbeFail resOpenSSH).Confidence = "medium"
  ∧ (enrichResult cfgOSDetect svcProbeFail resOpenSSH).OSGuess = "Linux"
  ∧ resOpenSSH.Confidence = "high" := by
  have h := worker_os_confidence_overwrite cfgOSDetect svcProbeFail resOpenSSH rfl rfl
    (by rw [show serviceStep cfgOSDetect svcProbeFail resOpenSSH = resOpenSSH from rfl,
      show DetectOSForResult resOpenSSH = ("Linux", "medium") from rfl]; decide)
  refine ⟨?_, ?_, rfl⟩
  · rw [h.1]
    rw [show serviceStep cfgOSDetect svcProbeFail resOpenSSH = resOpenSSH from rfl,
      show DetectOSForResult resOpenSSH = ("Linux", "medium") from rfl]
  · rw [h.2]
    rw [show serviceStep cfgOSDetect svcProbeFail resOpenSSH = resOpenSSH from rfl,
      show DetectOSForResult resOpenSSH = ("Linux", "medium") from rfl]

theorem scanTypesOf_nodup (cfg : Config) : (scanTypesOf cfg).Nodup := by
  obtain ⟨T, ip, P, t, u, st, w, tm, sd, od, v⟩ := cfg
  cases t <;> cases u <;> cases st <;> simp [scanTypesOf]

theorem runJob_countP (cfg : Config) (o : Oracles) (p q : Nat) (s : String) :
    (runJob cfg o (jobFor cfg p)).countP (fun r => r.Port == q && r.Proto == s)
      = if p = q then (scanTypesOf cfg).countP (fun st => st.str == s) else 0 := by
  unfold runJob
  rw [List.countP_map]
  by_cases hpq : p = q
  · subst hpq
    rw [if_pos rfl]
    apply List.countP_congr
    intro st _
    have h1 : (publish cfg o (jobFor cfg p) st).Port = p :=
      (publish_fields cfg o (jobFor cfg p) st).1
    have h2 := (publish_fields cfg o (jobFor cfg p) st).2
    simp [Function.comp, h1, h2]
  · rw [if_neg hpq]
    rw [List.countP_eq_zero]
    intro st _
    have h1 : (publish cfg o (jobFor cfg p) st).Port = p :=
      (publish_fields cfg o (jobFor cfg p) st).1
    have h2 := (publish_fields cfg o (jobFor cfg p) st).2
    simp [Function.comp, h1, h2, hpq]

theorem run_counts (cfg : Config) (o : Oracles) (l : List Nat) (q : Nat) (s : String) :
    ((l.map (fun p => runJob cfg o (jobFor cfg p))).flatten).countP
        (fun r => r.Port == q && r.Proto == s)
      = (l.count q) * ((scanTypesOf cfg).countP (fun st => st.str == s)) := by
  induction l with
  | nil => simp
  | cons p t ih =>
    simp only [List.map_cons, List.flatten_cons, List.countP_append, ih, runJob_countP]
    by_cases hpq : p = q
    · subst hpq
      simp [List.count_cons, Nat.add_mul]
      ring
    · simp [List.count_cons, hpq]

theorem run_length_aux (cfg : Config) (o : Oracles) (l : List Nat) :
    ((l.map (fun p => runJob cfg o (jobFor cfg p))).flatten).length
      = l.length * (scanTypesOf cfg).length := by
  induction l with
  | nil => simp
  | cons p t ih =>
    simp only [List.map_cons, List.flatten_cons, List.length_append, ih]
    simp only [runJob, jobFor, List.length_map, List.length_cons]
    ring

theorem run_results_pairs (cfg : Config) (o : Oracles) (l : List Nat) :
    ∀ r ∈ (l.map (fun p => runJob cfg o (jobFor cfg p))).flatten,
      r.Port ∈ l ∧ ∃ st ∈ scanTypesOf cfg, r.Proto = st.str := by
  intro r hr
  rw [List.mem_flatten] at hr
  obtain ⟨rs, hrs, hr⟩ := hr
  rw [List.mem_map] at hrs
  obtain ⟨p, hp, rfl⟩ := hrs
  unfold runJob at hr
  rw [List.mem_map] at hr
  obtain ⟨st, hst, rfl⟩ := hr
  have h := publish_fields cfg o (jobFor cfg p) st
  refine ⟨?_, st, hst, h.2⟩
  rw [h.1]
  exact hp

/-- C7: a worker executes a job's protocol list strictly sequentially in
the job's given order — the published results' protocols are exactly the
job's scan-type list, in order — and when no protocol is requested the
engine defaults the list to tcp alone. -/
theorem job_protocol_order (cfg : Config) (o : Oracles) (job : PortJob) :
    ((runJob cfg o job).map (fun r => r.Proto) = job.ScanTypes.map ScanType.str)
  ∧ (cfg.ScanStealth = false → cfg.ScanTCP = false → cfg.ScanUDP = false →
      scanTypesOf cfg = [ScanType.tcp]) := by
  constructor
  · unfold runJob
    rw [List.map_map]
    apply List.map_congr_left
    intro st _
    exact (publish_fields cfg o job st).2
  · intro h1 h2 h3
    simp [scanTypesOf, h1, h2, h3]

/-- Witness for C7: the stealth+tcp job publishes `["stealth", "tcp"]` in
that order, and a flagless configuration defaults to `[tcp]`. -/
theorem job_protocol_order_witness :
    (runJob cfgStealthTCP oracleDefault (jobFor cfgStealthTCP 80)).map (fun r => r.Proto)
      = ["stealth", "tcp"]
  ∧ scanTypesOf cfgNoFlags = [ScanType.tcp] := by
  constructor
  · exact ((job_protocol_order cfgStealthTCP oracleDefault (jobFor cfgStealthTCP 80)).1).trans rfl
  · exact (job_protocol_order cfgNoFlags oracleDefault (jobFor cfgNoFlags 22)).2 rfl rfl rfl

/-- C2: for every valid configuration (non-empty target and address,
non-empty duplicate-free port list), absent cancellation, `Run` succeeds
and the result stream carries exactly ports × protocols results — exactly
one per requested (port, protocol) pair, and nothing else. -/
theorem run_result_stream_cardinality (cfg : Config) (o : Oracles)
    (hT : cfg.Target ≠ "") (hIP : cfg.IP ≠ "") (hP : cfg.Ports ≠ []) (hnd : cfg.Ports.Nodup) :
    ∃ rs, Run cfg o = .ok rs
      ∧ rs.length = cfg.Ports.length * (scanTypesOf cfg).length
      ∧ (∀ q ∈ cfg.Ports, ∀ st ∈ scanTypesOf cfg, pairCount rs q st.str = 1)
      ∧ (∀ r ∈ rs, r.Port ∈ cfg.Ports ∧ ∃ st ∈ scanTypesOf cfg, r.Proto = st.str) := by
  refine ⟨(cfg.Ports.map (fun p => runJob cfg o (jobFor cfg p))).flatten, ?_, ?_, ?_, ?_⟩
  · unfold Run
    rw [if_neg (by simp [hT, hIP]), if_neg (by simp [hP])]
  · exact run_length_aux cfg o cfg.Ports
  · intro q hq st hst
    unfold pairCount
    rw [run_counts, List.count_eq_one_of_mem hnd hq, one_mul]
    have : (scanTypesOf cfg).countP (fun st2 => st2.str == st.str)
        = (scanTypesOf cfg).countP (fun st2 => st2 == st) := by
      apply List.countP_congr
      intro st2 _
      cases st2 <;> cases st <;> simp [ScanType.str]
    rw [this]
    exact List.count_eq_one_of_mem (scanTypesOf_nodup cfg) hst
  · exact run_results_pairs cfg o cfg.Ports

/-- Witness for C2 at the stealth+tcp configuration on one port: two
results, one per pair. -/
theorem run_result_stream_cardinality_witness :
    ∃ rs, Run cfgStealthTCP oracleDefault = .ok rs
      ∧ rs.length = cfgStealthTCP.Ports.length * (scanTypesOf cfgStealthTCP).length
      ∧ (∀ q ∈ cfgStealthTCP.Ports, ∀ st ∈ scanTypesOf cfgStealthTCP, pairCount rs q st.str = 1)
      ∧ (∀ r ∈ rs, r.Port ∈ cfgStealthTCP.Ports
          ∧ ∃ st ∈ scanTypesOf cfgStealthTCP, r.Proto = st.str) :=
  run_result_stream_cardinality cfgStealthTCP oracleDefault
    (by decide) (by decide) (by decide) (by decide)

/-- C1 (the code, evaluated at the claim's failing input): with stealth
and tcp requested, port 80, and the Privilege Gate answering false, `Run`
does not abort with `ErrNeedPriv` — it starts the pool, emits a stealth
result classified `"filtered"` with a per-result error annotation, and
still executes the TCP probe for the same port. -/
theorem run_stealth_unprivileged_not_gated :
    Run cfgStealthTCP oracleDefault = .ok
      [{ Target := "host", IP := "192.0.2.1", Port := 80, Proto := "stealth", State := "filtered",
         Error := "stealth scan requires raw socket privileges" },
       { Target := "host", IP := "192.0.2.1", Port := 80, Proto := "tcp", State := "open",
         RTTMillis := 1 }] := rfl

theorem poolInv_init (w n : Nat) : PoolInv (initPool w n) := by
  unfold PoolInv initPool
  refine ⟨fun _ => ⟨rfl, rfl⟩, fun h => ?_, fun h => ?_, fun h => ?_⟩ <;> simp at h

theorem poolInv_step {s s' : PoolState} (hs : PoolInv s) (st : PoolStep s s') : PoolInv s' := by
  obtain ⟨d, rem, run, jc, rc⟩ := s
  obtain ⟨h1, h2, h3, h4⟩ := hs
  cases st with
  | enqueueJob k hd hr =>
    simp only at hd hr
    subst hd
    exact ⟨fun _ => h1 rfl, fun h => by simp at h, fun h => by simp at h,
      fun h => absurd ((h1 rfl).2.symm.trans h) (by simp)⟩
  | closeJobs hd hr =>
    simp only at hd hr
    subst hd hr
    exact ⟨fun h => by simp at h, fun _ => ⟨rfl, rfl, (h1 rfl).2⟩, fun h => by simp at h,
      fun h => absurd ((h1 rfl).2.symm.trans h) (by simp)⟩
  | workerExit k hr =>
    simp only at hr
    subst hr
    refine ⟨fun h => h1 h, fun h => h2 h, fun h => ?_, fun h => h4 h⟩
    have := (h3 h).2.2.2
    simp at this
  | closeResults hd hr =>
    simp only at hd hr
    subst hd hr
    exact ⟨fun h => by simp at h, fun h => by simp at h,
      fun _ => ⟨(h2 rfl).1, (h2 rfl).2.1, rfl, rfl⟩, fun _ => rfl⟩

theorem poolReach_inv (w n : Nat) : ∀ s, PoolReach (initPool w n) s → PoolInv s := by
  intro s h
  induction h with
  | refl => exact poolInv_init w n
  | tail hab hbc ih => exact poolInv_step ih hbc

theorem pool_drain_workers : ∀ (k : Nat) (s : PoolState), s.running = k →
    PoolReach s { s with running := 0 } := by
  intro k
  induction k with
  | zero =>
    intro s h
    have he : ({ s with running := 0 } : PoolState) = s := by
      cases s
      simp_all
    rw [he]
    exact Relation.ReflTransGen.refl
  | succ k ih =>
    intro s h
    exact Relation.ReflTransGen.head (PoolStep.workerExit s k h)
      (ih { s with running := k } rfl)

theorem pool_drain_jobs : ∀ (k : Nat) (s : PoolState), s.dpc = .enq → s.remaining = k →
    PoolReach s { s with remaining := 0 } := by
  intro k
  induction k with
  | zero =>
    intro s hd h
    have he : ({ s with remaining := 0 } : PoolState) = s := by
      cases s
      simp_all
    rw [he]
    exact Relation.ReflTransGen.refl
  | succ k ih =>
    intro s hd h
    exact Relation.ReflTransGen.head (PoolStep.enqueueJob s k hd h)
      (ih { s with remaining := k } hd rfl)

theorem pool_can_close : ∀ s, PoolInv s → ∃ s', PoolReach s s' ∧ s'.resultsClosed = true := by
  intro s hinv
  obtain ⟨d, rem, run, jc, rc⟩ := s
  obtain ⟨h1, h2, h3, h4⟩ := hinv
  cases d with
  | enq =>
    have r1 : PoolReach ⟨.enq, rem, run, jc, rc⟩ ⟨.enq, 0, run, jc, rc⟩ :=
      pool_drain_jobs rem _ rfl rfl
    have st2 : PoolStep ⟨.enq, 0, run, jc, rc⟩ ⟨.waiting, 0, run, true, rc⟩ :=
      PoolStep.closeJobs _ rfl rfl
    have r3 : PoolReach ⟨.waiting, 0, run, true, rc⟩ ⟨.waiting, 0, 0, true, rc⟩ :=
      pool_drain_workers run _ rfl
    have st4 : PoolStep ⟨.waiting, 0, 0, true, rc⟩ ⟨.done, 0, 0, true, true⟩ :=
      PoolStep.closeResults _ rfl rfl
    exact ⟨_, r1.trans ((Relation.ReflTransGen.single st2).trans
      (r3.trans (Relation.ReflTransGen.single st4))), rfl⟩
  | waiting =>
    have r1 : PoolReach ⟨.waiting, rem, run, jc, rc⟩ ⟨.waiting, rem, 0, jc, rc⟩ :=
      pool_drain_workers run _ rfl
    have st2 : PoolStep ⟨.waiting, rem, 0, jc, rc⟩ ⟨.done, rem, 0, jc, true⟩ :=
      PoolStep.closeResults _ rfl rfl
    exact ⟨_, r1.trans (Relation.ReflTransGen.single st2), rfl⟩
  | done =>
    exact ⟨_, Relation.ReflTransGen.refl, (h3 rfl).2.2.1⟩

theorem pool_closed_halted : ∀ s, PoolInv s → s.resultsClosed = true →
    ∀ s', ¬ PoolStep s s' := by
  intro s hinv hrc s' st
  obtain ⟨h1, h2, h3, h4⟩ := hinv
  have hd := h4 hrc
  have hrun := (h3 hd).2.2.2
  cases st with
  | enqueueJob k h hr => exact DispatcherPC.noConfusion (hd.symm.trans h)
  | closeJobs h hr => exact DispatcherPC.noConfusion (hd.symm.trans h)
  | workerExit k h => exact absurd (hrun.symm.trans h) (by omega)
  | closeResults h hr => exact DispatcherPC.noConfusion (hd.symm.trans h)

/-- C6: in every reachable pool state, once the result stream is closed,
the job queue is closed with all jobs enqueued, every worker has exited,
and no further transition exists (so it cannot be closed a second time
and was never closed while a worker ran); and from every reachable state
— including any early-cancellation interleaving, since workers may exit
at any moment — the pool can always go on to close the result stream. -/
theorem results_close_protocol (w n : Nat) :
    (∀ s, PoolReach (initPool w n) s → s.resultsClosed = true →
        s.jobsClosed = true ∧ s.remaining = 0 ∧ s.running = 0 ∧ ∀ s', ¬ PoolStep s s')
  ∧ (∀ s, PoolReach (initPool w n) s → ∃ s', PoolReach s s' ∧ s'.resultsClosed = true) := by
  constructor
  · intro s hreach hrc
    have hinv := poolReach_inv w n s hreach
    obtain ⟨h1, h2, h3, h4⟩ := hinv
    have hd := h4 hrc
    exact ⟨(h3 hd).1, (h3 hd).2.1, (h3 hd).2.2.2,
      pool_closed_halted s ⟨h1, h2, h3, h4⟩ hrc⟩
  · intro s hreach
    exact pool_can_close s (poolReach_inv w n s hreach)

/-- Witness for C6: a concrete complete run of one worker and one job,
ending closed with the job queue closed and the worker exited. -/
theorem results_close_protocol_witness :
    ((⟨.done, 0, 0, true, true⟩ : PoolState).jobsClosed = true
      ∧ (⟨.done, 0, 0, true, true⟩ : PoolState).running = 0) := by
  have hreach : PoolReach (initPool 1 1) ⟨.done, 0, 0, true, true⟩ := by
    have s0 : PoolStep (initPool 1 1) ⟨.enq, 0, 1, false, false⟩ :=
      PoolStep.enqueueJob (initPool 1 1) 0 rfl rfl
    have s1 : PoolStep ⟨.enq, 0, 1, false, false⟩ ⟨.waiting, 0, 1, true, false⟩ :=
      PoolStep.closeJobs ⟨.enq, 0, 1, false, false⟩ rfl rfl
    have s2 : PoolStep ⟨.waiting, 0, 1, true, false⟩ ⟨.waiting, 0, 0, true, false⟩ :=
      PoolStep.workerExit ⟨.waiting, 0, 1, true, false⟩ 0 rfl
    have s3 : PoolStep ⟨.waiting, 0, 0, true, false⟩ ⟨.done, 0, 0, true, true⟩ :=
      PoolStep.closeResults ⟨.waiting, 0, 0, true, false⟩ rfl rfl
    exact Relation.ReflTransGen.head s0 (Relation.ReflTransGen.head s1
      (Relation.ReflTransGen.head s2 (Relation.ReflTransGen.single s3)))
  have h := (results_close_protocol 1 1).1 ⟨.done, 0, 0, true, true⟩ hreach rfl
  exact ⟨h.1, h.2.2.1⟩

end PortProwler
